import Mathlib

/-!
Shallow embedding of the hivecog coordination core
(src/autognosis/autognosis.c and src/autognosis/hive_coordination.c).

Modelling conventions:
- C float fields are modelled as rationals; time_t values as integers;
  u32 counters as naturals reduced modulo 2^32 where overflow can occur.
- Each C struct becomes a Lean structure with the same field names; each
  C function becomes a Lean function of the same name.  In-place pointer
  mutation becomes explicit state passing: a function that mutates a
  struct returns the updated value (and, for functions that hand messages
  to the send boundary, the list of messages passed to send_message).
- Null-pointer guards on arguments that the constructors guarantee to be
  non-null (the coordinator itself, its engine, its self image) are
  dropped; pointers that the code genuinely tests before use (topology,
  global_knowledge) are modelled as Option.
- The message payload buffer char data[512] plus the separate data_length
  field is modelled as a typed payload (HiveData) plus the numeric
  data_length; call sites pass the LP64 sizeof of the struct they copy,
  exactly as the C does, and the dispatch compares data_length against
  those sizes.
-/

namespace Hivecog

/-- atom_type_t from autognosis.h. -/
inductive AtomType where
  | ATOM_NODE
  | ATOM_LINK
  | ATOM_CONCEPT
  | ATOM_PREDICATE
  | ATOM_EVALUATION
  deriving DecidableEq, Repr

/-- healing_action_t from autognosis.h. -/
inductive HealingAction where
  | HEALING_NONE
  | HEALING_RETRY
  | HEALING_REROUTE
  | HEALING_RECONSTRUCT
  | HEALING_MIGRATE
  deriving DecidableEq, Repr

/-- atom_t from autognosis.h (the outgoing link array, unused by the
coordination core, is omitted). -/
structure Atom where
  id : Nat
  type : AtomType
  name : String
  truth_value : ℚ
  confidence : ℚ
  importance : ℚ
  timestamp : ℤ
  deriving DecidableEq, Repr

/-- atom_space_t from autognosis.h: the singly linked atom list with its
count and id counter (owner_node is unused by the core). -/
structure AtomSpace where
  atoms : List Atom
  atom_count : Nat
  next_id : Nat
  deriving DecidableEq, Repr

/-- atomspace_create from autognosis.c: empty list, count 0, next id 1. -/
def atomspace_create : AtomSpace :=
  { atoms := [], atom_count := 0, next_id := 1 }

/-- atomspace_find_atom from autognosis.c: first atom in list order whose
name matches. -/
def atomspace_find_atom (space : AtomSpace) (name : String) : Option Atom :=
  space.atoms.find? (fun a => a.name = name)

/-- Replace the first list entry whose name matches, leaving the rest
unchanged: the functional image of mutating the atom returned by
atomspace_find_atom through its pointer. -/
def update_first (atoms : List Atom) (name : String) (f : Atom → Atom) : List Atom :=
  match atoms with
  | [] => []
  | a :: rest =>
    if a.name = name then f a :: rest else a :: update_first rest name f

/-- atomspace_add_atom from autognosis.c: if the name exists, bump that
atom's importance by 0.1 and return it; otherwise create an atom with
defaults truth 0.5, confidence 0.5, importance 1.0, current timestamp,
insert it at the head of the list and bump the count and id counter.
Returns the updated space together with the atom the C returns a pointer
to. -/
def atomspace_add_atom (space : AtomSpace) (ty : AtomType) (name : String)
    (now : ℤ) : AtomSpace × Atom :=
  match atomspace_find_atom space name with
  | some existing =>
    let updated : Atom := { existing with importance := existing.importance + 0.1 }
    ({ space with
        atoms := update_first space.atoms name
          (fun a => { a with importance := a.importance + 0.1 }) },
      updated)
  | none =>
    let atom : Atom :=
      { id := space.next_id
        type := ty
        name := name
        truth_value := 0.5
        confidence := 0.5
        importance := 1.0
        timestamp := now }
    ({ space with
        atoms := atom :: space.atoms
        atom_count := space.atom_count + 1
        next_id := space.next_id + 1 },
      atom)

/-- atomspace_update_truth_value from autognosis.c: confidence weighted
blend of truth values; the new confidence is the average of the weights,
clamped to 1; a no-op on both fields when the weights sum to 0 or less;
the timestamp is always refreshed. -/
def atomspace_update_truth_value (atom : Atom) (truth confidence : ℚ)
    (now : ℤ) : Atom :=
  let old_weight := atom.confidence
  let new_weight := confidence
  let total_weight := old_weight + new_weight
  if total_weight > 0 then
    let conf0 := total_weight / 2
    { atom with
        truth_value :=
          (atom.truth_value * old_weight + truth * new_weight) / total_weight
        confidence := if conf0 > 1 then 1 else conf0
        timestamp := now }
  else
    { atom with timestamp := now }

/-- network_node_t from autognosis.h. -/
structure NetworkNode where
  node_id : Nat
  address : String
  health_score : ℚ
  trust_level : ℚ
  last_seen : ℤ
  capabilities : Nat
  deriving DecidableEq, Repr

/-- network_topology_t from autognosis.h. -/
structure NetworkTopology where
  nodes : List NetworkNode
  node_count : Nat
  overall_health : ℚ
  last_update : ℤ
  deriving DecidableEq, Repr

/-- Replace the first topology node with the given id, the functional
image of the in-place update loops in autognosis.c. -/
def update_first_node (nodes : List NetworkNode) (id : Nat)
    (f : NetworkNode → NetworkNode) : List NetworkNode :=
  match nodes with
  | [] => []
  | n :: rest =>
    if n.node_id = id then f n :: rest else n :: update_first_node rest id f

/-- topology_add_node from autognosis.c: refresh address and last_seen of
an existing node with this id, else insert a fresh node (health 1.0,
trust 0.5) at the head of the list. -/
def topology_add_node (t : NetworkTopology) (id : Nat) (address : String)
    (now : ℤ) : NetworkTopology :=
  if t.nodes.any (fun n => n.node_id = id) then
    { t with nodes := (update_first_node t.nodes id
        (fun n => { n with address := address, last_seen := now })) }
  else
    let node : NetworkNode :=
      { node_id := id, address := address, health_score := 1.0
        trust_level := 0.5, last_seen := now, capabilities := 0 }
    { t with nodes := node :: t.nodes, node_count := t.node_count + 1
             last_update := now }

/-- topology_update_node_health from autognosis.c: set the health of the
first node with this id, then recompute overall_health as the average
health over the nodes with health above 0.1 (0 when there are none). -/
def topology_update_node_health (t : NetworkTopology) (id : Nat)
    (health : ℚ) (now : ℤ) : NetworkTopology :=
  let nodes := update_first_node t.nodes id
    (fun n => { n with health_score := health, last_seen := now })
  let healthy := nodes.filter (fun n => n.health_score > 0.1)
  let total_health := (healthy.map (fun n => n.health_score)).sum
  let overall :=
    if healthy.length > 0 then total_health / healthy.length else 0
  { t with nodes := nodes, overall_health := overall, last_update := now }

/-- healing_rule_t from autognosis.h. -/
structure HealingRule where
  condition : String
  action : HealingAction
  confidence : ℚ
  success_count : Nat
  attempt_count : Nat
  deriving DecidableEq, Repr

/-- self_image_t from autognosis.h (only the fields the coordination core
touches). -/
structure SelfImage where
  health_score : ℚ
  autonomy_level : ℚ
  deriving DecidableEq, Repr

/-- autognosis_engine_t from autognosis.h, restricted to the fields the
coordination core reads: the self image (guaranteed non-null by
autognosis_create), the topology and global knowledge pointers (tested
before use in the C, hence Option) and the healing rule list. -/
structure AutognosisEngine where
  self_image : SelfImage
  topology : Option NetworkTopology
  healing_rules : List HealingRule
  global_knowledge : Option AtomSpace
  deriving DecidableEq, Repr

/-- Boolean test that the second character list occurs as a contiguous
block at the start of the first, building block for the strstr model. -/
def chars_match_at_start : List Char → List Char → Bool
  | _, [] => true
  | [], _ :: _ => false
  | h :: t, n :: nt => h = n && chars_match_at_start t nt

/-- Boolean test that the second character list occurs contiguously
somewhere in the first. -/
def chars_contain : List Char → List Char → Bool
  | [], needle => needle.isEmpty
  | h :: t, needle =>
    chars_match_at_start (h :: t) needle || chars_contain t needle

/-- Model of the C strstr test: does the description contain the rule
condition as a substring. -/
def strstr_hit (haystack needle : String) : Bool :=
  chars_contain haystack.toList needle.toList

/-- healing_evaluate_problem from autognosis.c, with the engine argument
reduced to its rule list: scan the rules in list order, score each rule
whose condition occurs in the problem description by confidence times
success rate (success rate 0.5 when never attempted), keep the first
rule with a strictly best positive score, and return its action, or
HEALING_RETRY when no rule matched with positive score. -/
def healing_evaluate_problem (rules : List HealingRule) (problem_desc : String) :
    HealingAction :=
  let best := rules.foldl
    (fun (acc : Option HealingRule × ℚ) r =>
      if strstr_hit problem_desc r.condition then
        let success_rate : ℚ :=
          if r.attempt_count > 0 then
            (r.success_count : ℚ) / (r.attempt_count : ℚ)
          else 0.5
        let score := r.confidence * success_rate
        if score > acc.2 then (some r, score) else acc
      else acc)
    (none, 0)
  match best.1 with
  | some r => r.action
  | none => HealingAction.HEALING_RETRY

/-- hive_message_type_t from hive_coordination.h. -/
inductive HiveMessageType where
  | HIVE_MSG_HEARTBEAT
  | HIVE_MSG_KNOWLEDGE_SHARE
  | HIVE_MSG_HEALING_REQUEST
  | HIVE_MSG_HEALING_RESPONSE
  | HIVE_MSG_TOPOLOGY_UPDATE
  | HIVE_MSG_EMERGENCY_SIGNAL
  deriving DecidableEq, Repr

/-- knowledge_packet_t from hive_coordination.h. -/
structure KnowledgePacket where
  atom_name : String
  atom_type : AtomType
  truth_value : ℚ
  confidence : ℚ
  importance : ℚ
  timestamp : ℤ
  deriving DecidableEq, Repr

/-- healing_request_t from hive_coordination.h. -/
structure HealingRequest where
  problem_id : Nat
  problem_description : String
  severity : ℚ
  requesting_node : Nat
  request_time : ℤ
  suggested_action : HealingAction
  deriving DecidableEq, Repr

/-- healing_response_t from hive_coordination.h. -/
structure HealingResponse where
  problem_id : Nat
  responding_node : Nat
  recommended_action : HealingAction
  confidence : ℚ
  additional_info : String
  deriving DecidableEq, Repr

/-- Typed image of the raw char data[512] payload buffer: the concrete
structs the C memcpys into it, or empty (all callers in the repository
copy one of these three structs or leave the buffer empty). -/
inductive HiveData where
  | empty
  | knowledge (p : KnowledgePacket)
  | healingReq (r : HealingRequest)
  | healingResp (r : HealingResponse)
  deriving DecidableEq, Repr

/-- Capacity of the fixed payload buffer char data[512]. -/
def HIVE_MESSAGE_DATA_SIZE : Nat := 512

/-- sizeof(knowledge_packet_t) on the LP64 ABI: 256-byte name, 4-byte
enum, three 4-byte floats, 4 bytes padding, 8-byte time_t. -/
def KNOWLEDGE_PACKET_SIZE : Nat := 280

/-- sizeof(healing_request_t) on the LP64 ABI: 4-byte id, 256-byte
description, 4-byte float, 4-byte node id, 4 bytes padding, 8-byte
time_t, 4-byte enum, 4 bytes tail padding. -/
def HEALING_REQUEST_SIZE : Nat := 288

/-- sizeof(healing_response_t) on the LP64 ABI: two 4-byte ids, 4-byte
enum, 4-byte float, 128-byte info buffer. -/
def HEALING_RESPONSE_SIZE : Nat := 144

/-- hive_message_t from hive_coordination.h. -/
structure HiveMessage where
  sender_id : Nat
  recipient_id : Nat
  type : HiveMessageType
  sequence_number : Nat
  timestamp : ℤ
  data_length : Nat
  data : HiveData
  deriving DecidableEq, Repr

/-- hive_message_create from hive_coordination.c: zero sequence, empty
payload, current timestamp. -/
def hive_message_create (sender recipient : Nat) (ty : HiveMessageType)
    (now : ℤ) : HiveMessage :=
  { sender_id := sender, recipient_id := recipient, type := ty
    sequence_number := 0, timestamp := now
    data_length := 0, data := HiveData.empty }

/-- hive_message_set_data from hive_coordination.c: copy the payload and
record its length, but silently do nothing when the length exceeds the
512-byte buffer (the length check guards the memcpy; no error is
reported and the message keeps its previous payload). -/
def hive_message_set_data (message : HiveMessage) (data : HiveData)
    (length : Nat) : HiveMessage :=
  if length > HIVE_MESSAGE_DATA_SIZE then message
  else { message with data := data, data_length := length }

/-- hive_coordinator_t from hive_coordination.h: the state fields (the
function-pointer table always holds the static impl functions, so it is
not part of the state). hive_coordinator_create rejects a null engine,
so the engine is not optional here. -/
structure HiveCoordinator where
  local_engine : AutognosisEngine
  node_id : Nat
  sequence_counter : Nat
  last_heartbeat : ℤ
  last_knowledge_sync : ℤ
  collective_intelligence_score : ℚ
  deriving DecidableEq, Repr

/-- Width of the u32 sequence counter. -/
def U32_MOD : Nat := 2 ^ 32

/-- send_message_impl from hive_coordination.c: assign the next value of
the u32 sequence counter to the outgoing message (the C then only logs;
transport is out of scope).  Returns the updated coordinator and the
message as handed to the transport boundary. -/
def send_message_impl (coordinator : HiveCoordinator) (message : HiveMessage) :
    HiveCoordinator × HiveMessage :=
  let seq := (coordinator.sequence_counter + 1) % U32_MOD
  ({ coordinator with sequence_counter := seq },
   { message with sequence_number := seq })

/-- knowledge_packet_from_atom from hive_coordination.c: direct field
copy, dropping the atom id. -/
def knowledge_packet_from_atom (atom : Atom) : KnowledgePacket :=
  { atom_name := atom.name
    atom_type := atom.type
    truth_value := atom.truth_value
    confidence := atom.confidence
    importance := atom.importance
    timestamp := atom.timestamp }

/-- knowledge_packet_to_atom from hive_coordination.c: upsert the packet
name into the space, blend the packet truth and confidence into the atom
via atomspace_update_truth_value, then overwrite importance and
timestamp with the packet values.  The atom is mutated through the
pointer held by the space, so the returned space carries the final
atom. -/
def knowledge_packet_to_atom (space : AtomSpace) (packet : KnowledgePacket)
    (now : ℤ) : AtomSpace × Atom :=
  let r := atomspace_add_atom space packet.atom_type packet.atom_name now
  let a1 := atomspace_update_truth_value r.2 packet.truth_value packet.confidence now
  let a2 := { a1 with importance := packet.importance
                      timestamp := packet.timestamp }
  ({ r.1 with atoms := update_first r.1.atoms packet.atom_name (fun _ => a2) },
   a2)

/-- hive_broadcast_knowledge from hive_coordination.c: encode the atom as
a knowledge packet, wrap it in a broadcast KNOWLEDGE_SHARE envelope
(recipient 0), copy sizeof(knowledge_packet_t) bytes of payload and hand
it to send_message. -/
def hive_broadcast_knowledge (coordinator : HiveCoordinator) (atom : Atom)
    (now : ℤ) : HiveCoordinator × List HiveMessage :=
  let packet := knowledge_packet_from_atom atom
  let message := hive_message_create coordinator.node_id 0
    HiveMessageType.HIVE_MSG_KNOWLEDGE_SHARE now
  let message := hive_message_set_data message (HiveData.knowledge packet)
    KNOWLEDGE_PACKET_SIZE
  let r := send_message_impl coordinator message
  (r.1, [r.2])

/-- share_knowledge_impl from hive_coordination.c: broadcast the atom
only when its importance exceeds 0.7. -/
def share_knowledge_impl (coordinator : HiveCoordinator) (atom : Atom)
    (now : ℤ) : HiveCoordinator × List HiveMessage :=
  if atom.importance > 0.7 then hive_broadcast_knowledge coordinator atom now
  else (coordinator, [])

/-- process_shared_knowledge_impl from hive_coordination.c: integrate the
packet into the local global knowledge space (a no-op when the global
knowledge pointer is null). -/
def process_shared_knowledge_impl (coordinator : HiveCoordinator)
    (packet : KnowledgePacket) (now : ℤ) : HiveCoordinator :=
  match coordinator.local_engine.global_knowledge with
  | none => coordinator
  | some g =>
    let r := knowledge_packet_to_atom g packet now
    { coordinator with
        local_engine := { coordinator.local_engine with global_knowledge := some r.1 } }

/-- healing_request_create from hive_coordination.c, with the process
wide static problem_id counter passed in explicitly: fills the request
with the description, severity, requesting node, current time and
suggested action HEALING_NONE. -/
def healing_request_create (problem_desc : String) (severity : ℚ)
    (node_id : Nat) (problem_id : Nat) (now : ℤ) : HealingRequest :=
  { problem_id := problem_id
    problem_description := problem_desc
    severity := severity
    requesting_node := node_id
    request_time := now
    suggested_action := HealingAction.HEALING_NONE }

/-- healing_response_create from hive_coordination.c (calloc leaves the
additional info buffer empty). -/
def healing_response_create (problem_id node_id : Nat)
    (action : HealingAction) (confidence : ℚ) : HealingResponse :=
  { problem_id := problem_id
    responding_node := node_id
    recommended_action := action
    confidence := confidence
    additional_info := "" }

/-- request_healing_assistance_impl from hive_coordination.c: wrap the
request in a broadcast HEALING_REQUEST envelope (recipient 0), copy
sizeof(healing_request_t) bytes of payload and hand it to
send_message. -/
def request_healing_assistance_impl (coordinator : HiveCoordinator)
    (request : HealingRequest) (now : ℤ) : HiveCoordinator × List HiveMessage :=
  let message := hive_message_create coordinator.node_id 0
    HiveMessageType.HIVE_MSG_HEALING_REQUEST now
  let message := hive_message_set_data message (HiveData.healingReq request)
    HEALING_REQUEST_SIZE
  let r := send_message_impl coordinator message
  (r.1, [r.2])

/-- respond_to_healing_request_impl from hive_coordination.c: evaluate
the request description against the local healing rules, build a
response carrying the recommended action with confidence hardcoded to
0.8, wrap it in a HEALING_RESPONSE envelope unicast to the requesting
node and hand it to send_message. -/
def respond_to_healing_request_impl (coordinator : HiveCoordinator)
    (request : HealingRequest) (now : ℤ) : HiveCoordinator × List HiveMessage :=
  let recommended_action := healing_evaluate_problem
    coordinator.local_engine.healing_rules request.problem_description
  let response := healing_response_create request.problem_id
    coordinator.node_id recommended_action 0.8
  let message := hive_message_create coordinator.node_id
    request.requesting_node HiveMessageType.HIVE_MSG_HEALING_RESPONSE now
  let message := hive_message_set_data message (HiveData.healingResp response)
    HEALING_RESPONSE_SIZE
  let r := send_message_impl coordinator message
  (r.1, [r.2])

/-- hive_coordinate_healing from hive_coordination.c, with the static
problem_id counter passed in: build a request with severity hardcoded to
0.8, evaluate the problem locally, record the local action as the
suggested action, and escalate to the hive (broadcast) exactly when the
local action is HEALING_NONE or HEALING_RETRY. -/
def hive_coordinate_healing (coordinator : HiveCoordinator)
    (problem_desc : String) (problem_id : Nat) (now : ℤ) :
    HiveCoordinator × List HiveMessage :=
  let request := healing_request_create problem_desc 0.8 coordinator.node_id
    problem_id now
  let local_action := healing_evaluate_problem
    coordinator.local_engine.healing_rules problem_desc
  let request := { request with suggested_action := local_action }
  if local_action = HealingAction.HEALING_NONE ∨
     local_action = HealingAction.HEALING_RETRY then
    request_healing_assistance_impl coordinator request now
  else (coordinator, [])

/-- Rendering of the %.2f format used for the collective state atom name:
round to hundredths (half away from zero is approximated as half up,
which agrees with printf on the values the code produces) and print with
two fractional digits. -/
def format_2dp (q : ℚ) : String :=
  let n : ℤ := ⌊q * 100 + 1 / 2⌋
  let frac := (n % 100).toNat
  toString (n / 100) ++ "." ++ (if frac < 10 then "0" else "") ++ toString frac

/-- hive_update_collective_topology from hive_coordination.c: when a
topology exists, upsert a concept atom named after the rounded overall
health into the global knowledge space and blend in the overall health
with confidence 0.9 (a no-op when the global knowledge pointer is null,
since atomspace_add_atom then returns null). -/
def hive_update_collective_topology (coordinator : HiveCoordinator)
    (now : ℤ) : HiveCoordinator :=
  match coordinator.local_engine.topology with
  | none => coordinator
  | some t =>
    match coordinator.local_engine.global_knowledge with
    | none => coordinator
    | some g =>
      let name := "collective_health_" ++ format_2dp t.overall_health
      let r := atomspace_add_atom g AtomType.ATOM_CONCEPT name now
      let a := atomspace_update_truth_value r.2 t.overall_health 0.9 now
      let g2 := { r.1 with atoms := update_first r.1.atoms name (fun _ => a) }
      { coordinator with
          local_engine := { coordinator.local_engine with global_knowledge := some g2 } }

/-- hive_calculate_emergence_factor from hive_coordination.c: weighted
sum of the network health (0.5 when there is no topology), the
knowledge diversity atom_count / 100 clamped to 1 (0.1 when there is no
knowledge space) and the previous collective intelligence score, with
weights 0.4, 0.3, 0.3, the result clamped to 1. -/
def hive_calculate_emergence_factor (coordinator : HiveCoordinator) : ℚ :=
  let network_health :=
    match coordinator.local_engine.topology with
    | some t => t.overall_health
    | none => 0.5
  let knowledge_diversity0 :=
    match coordinator.local_engine.global_knowledge with
    | some g => (g.atom_count : ℚ) / 100
    | none => 0.1
  let knowledge_diversity :=
    if knowledge_diversity0 > 1 then 1 else knowledge_diversity0
  let emergence := network_health * 0.4 + knowledge_diversity * 0.3 +
    coordinator.collective_intelligence_score * 0.3
  if emergence > 1 then 1 else emergence

/-- hive_adaptive_behavior_update from hive_coordination.c: step the
autonomy level to 0.9 above emergence 0.8 and to 0.3 below emergence
0.3, then store the emergence factor as the new collective intelligence
score. -/
def hive_adaptive_behavior_update (coordinator : HiveCoordinator) :
    HiveCoordinator :=
  let emergence_factor := hive_calculate_emergence_factor coordinator
  let image := coordinator.local_engine.self_image
  let image2 :=
    if emergence_factor > 0.8 then { image with autonomy_level := 0.9 }
    else if emergence_factor < 0.3 then { image with autonomy_level := 0.3 }
    else image
  { coordinator with
      local_engine := { coordinator.local_engine with self_image := image2 }
      collective_intelligence_score := emergence_factor }

/-- update_collective_knowledge_impl from hive_coordination.c. -/
def update_collective_knowledge_impl (coordinator : HiveCoordinator)
    (now : ℤ) : HiveCoordinator :=
  hive_adaptive_behavior_update (hive_update_collective_topology coordinator now)

/-- calculate_swarm_health_impl from hive_coordination.c: weighted sum of
the local health score, the network health (0.5 without a topology) and
the collective intelligence score with weights 0.3, 0.4, 0.3. -/
def calculate_swarm_health_impl (coordinator : HiveCoordinator) : ℚ :=
  let local_health := coordinator.local_engine.self_image.health_score
  let network_health :=
    match coordinator.local_engine.topology with
    | some t => t.overall_health
    | none => 0.5
  local_health * 0.3 + network_health * 0.4 +
    coordinator.collective_intelligence_score * 0.3

/-- receive_message_impl from hive_coordination.c: dispatch on the
message type.  Heartbeats upsert the sender into the topology with full
health; knowledge shares are processed only when data_length equals
sizeof(knowledge_packet_t); healing requests are answered only when
data_length equals sizeof(healing_request_t); topology updates refresh
the collective topology; healing responses and emergency signals fall
through with no state change.  Returns the updated coordinator and the
messages handed to send_message during dispatch. -/
def receive_message_impl (coordinator : HiveCoordinator)
    (message : HiveMessage) (now : ℤ) : HiveCoordinator × List HiveMessage :=
  match message.type with
  | HiveMessageType.HIVE_MSG_HEARTBEAT =>
    (match coordinator.local_engine.topology with
     | none => coordinator
     | some t =>
       let t1 := topology_add_node t message.sender_id "remote_node" now
       let t2 := topology_update_node_health t1 message.sender_id 1.0 now
       { coordinator with
           local_engine := { coordinator.local_engine with topology := some t2 } },
     [])
  | HiveMessageType.HIVE_MSG_KNOWLEDGE_SHARE =>
    if message.data_length = KNOWLEDGE_PACKET_SIZE then
      match message.data with
      | HiveData.knowledge packet =>
        (process_shared_knowledge_impl coordinator packet now, [])
      | _ => (coordinator, [])
    else (coordinator, [])
  | HiveMessageType.HIVE_MSG_HEALING_REQUEST =>
    if message.data_length = HEALING_REQUEST_SIZE then
      match message.data with
      | HiveData.healingReq request =>
        respond_to_healing_request_impl coordinator request now
      | _ => (coordinator, [])
    else (coordinator, [])
  | HiveMessageType.HIVE_MSG_HEALING_RESPONSE => (coordinator, [])
  | HiveMessageType.HIVE_MSG_TOPOLOGY_UPDATE =>
    (hive_update_collective_topology coordinator now, [])
  | HiveMessageType.HIVE_MSG_EMERGENCY_SIGNAL => (coordinator, [])

/-- First half of hive_coordinator_process_cycle from
hive_coordination.c: send a broadcast heartbeat when at least 30 seconds
have passed since the last one, then refresh the collective knowledge
when at least 60 seconds have passed since the last sync. -/
def cycle_after_updates (coordinator : HiveCoordinator) (now : ℤ) :
    HiveCoordinator × List HiveMessage :=
  let r1 :=
    if now - coordinator.last_heartbeat ≥ 30 then
      let heartbeat := hive_message_create coordinator.node_id 0
        HiveMessageType.HIVE_MSG_HEARTBEAT now
      let s := send_message_impl coordinator heartbeat
      ({ s.1 with last_heartbeat := now }, [s.2])
    else (coordinator, ([] : List HiveMessage))
  let c1 := r1.1
  let c2 :=
    if now - c1.last_knowledge_sync ≥ 60 then
      { update_collective_knowledge_impl c1 now with last_knowledge_sync := now }
    else c1
  (c2, r1.2)

/-- Second half of hive_coordinator_process_cycle from
hive_coordination.c: walk the global knowledge list and, at the first
atom with importance above 0.8 and timestamp within the last 300
seconds, invoke share_knowledge (which broadcasts it, its importance
being above 0.7) and stop. -/
def cycle_share (coordinator : HiveCoordinator) (now : ℤ) :
    HiveCoordinator × List HiveMessage :=
  match coordinator.local_engine.global_knowledge with
  | none => (coordinator, [])
  | some g =>
    match g.atoms.find?
        (fun a => decide (a.importance > 0.8) && decide (now - a.timestamp < 300)) with
    | none => (coordinator, [])
    | some atom => share_knowledge_impl coordinator atom now

/-- hive_coordinator_process_cycle from hive_coordination.c: heartbeat
step, knowledge sync step, then the selective knowledge sharing scan. -/
def hive_coordinator_process_cycle (coordinator : HiveCoordinator)
    (now : ℤ) : HiveCoordinator × List HiveMessage :=
  let r1 := cycle_after_updates coordinator now
  let r2 := cycle_share r1.1 now
  (r2.1, r1.2 ++ r2.2)

/-- hive_coordinator_create from hive_coordination.c: zero sequence
counter, heartbeat and sync clocks set to now, collective intelligence
score 0.5. -/
def hive_coordinator_create (engine : AutognosisEngine) (node_id : Nat)
    (now : ℤ) : HiveCoordinator :=
  { local_engine := engine
    node_id := node_id
    sequence_counter := 0
    last_heartbeat := now
    last_knowledge_sync := now
    collective_intelligence_score := 0.5 }

/-- Fold a sequence of upsert calls over a store, the setting of the
uniqueness property in section 8 of the spec. -/
def run_upserts (space : AtomSpace) (ops : List (AtomType × String × ℤ)) :
    AtomSpace :=
  ops.foldl (fun s op => (atomspace_add_atom s op.1 op.2.1 op.2.2).1) space

/-! Concrete fixtures used by witnesses and counterexamples. -/

/-- The worked example of spec section 4.1: a fact at the creation
defaults truth 0.5, confidence 0.5. -/
def egMergeAtom : Atom :=
  { id := 1, type := AtomType.ATOM_CONCEPT, name := "fact"
    truth_value := 0.5, confidence := 0.5, importance := 1, timestamp := 0 }

/-- Topology with overall health 0.6, the section 8 emergence example. -/
def egTopology : NetworkTopology :=
  { nodes := [], node_count := 0, overall_health := 0.6, last_update := 0 }

/-- Knowledge space holding 50 atoms in its counter, the section 8
emergence example (the list itself is irrelevant to atom_count). -/
def egSpace50 : AtomSpace :=
  { atoms := [], atom_count := 50, next_id := 51 }

/-- Engine fixture: healthy self image, the example topology and
knowledge space, no healing rules. -/
def egEngine : AutognosisEngine :=
  { self_image := { health_score := 1, autonomy_level := 0.5 }
    topology := some egTopology
    healing_rules := []
    global_knowledge := some egSpace50 }

/-- Coordinator fixture with previous collective intelligence score 0.5,
node id 1, fresh clocks. -/
def egCoord : HiveCoordinator :=
  { local_engine := egEngine, node_id := 1, sequence_counter := 0
    last_heartbeat := 0, last_knowledge_sync := 0
    collective_intelligence_score := 0.5 }

/-- C1: Merge on a fact is the confidence-weighted blend: when the two
confidences sum to a positive value the merged truth value is the
confidence-weighted average and the merged confidence is the halved sum
clamped to 1; when they sum to zero both fields are left unchanged. -/
theorem C1_merge_weighted_blend (atom : Atom) (t c : ℚ) (now : ℤ) :
    (atom.confidence + c > 0 →
      (atomspace_update_truth_value atom t c now).truth_value =
        (atom.truth_value * atom.confidence + t * c) / (atom.confidence + c) ∧
      (atomspace_update_truth_value atom t c now).confidence =
        min 1 ((atom.confidence + c) / 2)) ∧
    (atom.confidence + c = 0 →
      (atomspace_update_truth_value atom t c now).truth_value =
        atom.truth_value ∧
      (atomspace_update_truth_value atom t c now).confidence =
        atom.confidence) := by
  constructor
  · intro h
    simp only [atomspace_update_truth_value, if_pos h]
    refine ⟨trivial, ?_⟩
    by_cases h1 : (atom.confidence + c) / 2 > 1
    · simp only [if_pos h1]
      exact (min_eq_left (by linarith)).symm
    · simp only [if_neg h1]
      exact (min_eq_right (by linarith)).symm
  · intro h
    have hneg : ¬ atom.confidence + c > 0 := by rw [h]; exact lt_irrefl 0
    simp only [atomspace_update_truth_value, if_neg hneg]
    exact ⟨trivial, trivial⟩

/-- Witness for C1 at the spec section 4.1 example: merging (0.9, 0.9)
into the default fact (0.5, 0.5) yields truth 53/70 and confidence
0.7. -/
theorem C1_merge_weighted_blend_witness :
    (atomspace_update_truth_value egMergeAtom 0.9 0.9 0).truth_value = 53 / 70 ∧
    (atomspace_update_truth_value egMergeAtom 0.9 0.9 0).confidence = 7 / 10 := by
  have h := (C1_merge_weighted_blend egMergeAtom 0.9 0.9 0).1
    (by norm_num [egMergeAtom])
  refine ⟨?_, ?_⟩
  · rw [h.1]; norm_num [egMergeAtom]
  · rw [h.2]; rw [min_eq_right (by norm_num [egMergeAtom])]
    norm_num [egMergeAtom]

/-- C2: evaluation of the code at the failing input: setting a 513-byte
payload on a message silently returns the message unchanged; no error
value exists in the signature, so the caller cannot observe the
rejection (the claim, following the spec, requires an explicit
ValidationError instead). -/
theorem C2_oversized_payload_silently_ignored (message : HiveMessage)
    (data : HiveData) :
    hive_message_set_data message data 513 = message := by
  simp [hive_message_set_data, HIVE_MESSAGE_DATA_SIZE]

/-- C7: with a topology and a knowledge space present and the health and
previous score inside the unit interval, the emergence factor is exactly
0.4 times the network health plus 0.3 times the clamped knowledge
diversity plus 0.3 times the previous collective intelligence score. -/
theorem C7_emergence_factor (c : HiveCoordinator) (t : NetworkTopology)
    (g : AtomSpace)
    (ht : c.local_engine.topology = some t)
    (hg : c.local_engine.global_knowledge = some g)
    (hnh1 : t.overall_health ≤ 1)
    (hs1 : c.collective_intelligence_score ≤ 1) :
    hive_calculate_emergence_factor c =
      0.4 * t.overall_health + 0.3 * min 1 ((g.atom_count : ℚ) / 100) +
        0.3 * c.collective_intelligence_score := by
  have hd0 : (0 : ℚ) ≤ (g.atom_count : ℚ) / 100 := by positivity
  simp only [hive_calculate_emergence_factor, ht, hg]
  by_cases hd : (g.atom_count : ℚ) / 100 > 1
  · rw [if_pos hd, min_eq_left (by linarith)]
    rw [if_neg (by linarith)]
    ring
  · rw [if_neg hd, min_eq_right (by linarith)]
    rw [if_neg (by linarith)]
    ring

/-- Witness for C7 at the spec section 8 example: network health 0.6,
atom count 50, previous score 0.5 give emergence factor 0.54. -/
theorem C7_emergence_factor_witness :
    hive_calculate_emergence_factor egCoord = 0.54 := by
  have h := C7_emergence_factor egCoord egTopology egSpace50 rfl rfl
    (by norm_num [egTopology]) (by norm_num [egCoord])
  rw [h, min_eq_right (by norm_num [egSpace50])]
  norm_num [egTopology, egSpace50, egCoord]

/-- A fact carrying non-default truth 0.9, confidence 0.9, importance 2,
used to exercise the packet codec round trip. -/
def atomC4 : Atom :=
  { id := 7, type := AtomType.ATOM_CONCEPT, name := "f"
    truth_value := 0.9, confidence := 0.9, importance := 2, timestamp := 5 }

/-- C4 counterexample: decoding the encoding of a fact with truth 0.9 and
confidence 0.9 into an empty store does not reproduce the truth value
(the store's first-write defaults 0.5, 0.5 are blended in, giving
53/70). -/
theorem C4_roundtrip_counterexample :
    (knowledge_packet_to_atom atomspace_create
        (knowledge_packet_from_atom atomC4) 0).2.truth_value ≠
      atomC4.truth_value := by
  norm_num [knowledge_packet_to_atom, knowledge_packet_from_atom,
    atomspace_add_atom, atomspace_find_atom, atomspace_create,
    atomspace_update_truth_value, atomC4]

/-- C4 amended: decoding the encoding of a fact into an empty store
reproduces name, importance and timestamp exactly, while truth and
confidence are the result of merging the packet values into the creation
defaults (0.5, 0.5): truth (0.25 + t*c) / (0.5 + c), confidence
min(1, (0.5 + c) / 2). -/
theorem C4_amended_roundtrip (atom : Atom) (now : ℤ)
    (hc : 0 ≤ atom.confidence) :
    ((knowledge_packet_to_atom atomspace_create
        (knowledge_packet_from_atom atom) now).2.truth_value =
      (0.25 + atom.truth_value * atom.confidence) / (0.5 + atom.confidence)) ∧
    ((knowledge_packet_to_atom atomspace_create
        (knowledge_packet_from_atom atom) now).2.confidence =
      min 1 ((0.5 + atom.confidence) / 2)) ∧
    ((knowledge_packet_to_atom atomspace_create
        (knowledge_packet_from_atom atom) now).2.importance =
      atom.importance) ∧
    ((knowledge_packet_to_atom atomspace_create
        (knowledge_packet_from_atom atom) now).2.name = atom.name) ∧
    ((knowledge_packet_to_atom atomspace_create
        (knowledge_packet_from_atom atom) now).2.timestamp =
      atom.timestamp) := by
  have hpos : (0.5 : ℚ) + atom.confidence > 0 := by linarith
  simp only [knowledge_packet_to_atom, knowledge_packet_from_atom,
    atomspace_add_atom, atomspace_find_atom, atomspace_create,
    List.find?_nil, atomspace_update_truth_value]
  rw [if_pos hpos]
  refine ⟨by norm_num, ?_, ?_, ?_, ?_⟩
  · by_cases h1 : ((0.5 : ℚ) + atom.confidence) / 2 > 1
    · simp only [if_pos h1]
      exact (min_eq_left (by linarith)).symm
    · simp only [if_neg h1]
      exact (min_eq_right (by linarith)).symm
  · trivial
  · rfl
  · trivial

/-- Witness for C4 amended at truth 0.9, confidence 0.9, importance 2:
the decoded fact carries truth 53/70, confidence 0.7, importance 2, the
exact numbers of the section 4.1 merge example. -/
theorem C4_amended_roundtrip_witness :
    ((knowledge_packet_to_atom atomspace_create
        (knowledge_packet_from_atom atomC4) 0).2.truth_value = 53 / 70) ∧
    ((knowledge_packet_to_atom atomspace_create
        (knowledge_packet_from_atom atomC4) 0).2.confidence = 7 / 10) ∧
    ((knowledge_packet_to_atom atomspace_create
        (knowledge_packet_from_atom atomC4) 0).2.importance = 2) := by
  have h := C4_amended_roundtrip atomC4 0 (by norm_num [atomC4])
  refine ⟨?_, ?_, h.2.2.1⟩
  · rw [h.1]; norm_num [atomC4]
  · rw [h.2.1, min_eq_right (by norm_num [atomC4])]
    norm_num [atomC4]

/-- Replacing the first atom of a given name with a function that keeps
the name leaves the list of names unchanged. -/
theorem update_first_map_name (atoms : List Atom) (name : String)
    (f : Atom → Atom) (hf : ∀ a, (f a).name = a.name) :
    (update_first atoms name f).map Atom.name = atoms.map Atom.name := by
  induction atoms with
  | nil => rfl
  | cons a rest ih =>
    simp only [update_first]
    by_cases h : a.name = name
    · simp [h, hf]
    · simp [h, ih]

/-- atomspace_add_atom either reuses an existing atom, keeping the name
list identical, or inserts a genuinely new name at the head. -/
theorem atomspace_add_atom_names (space : AtomSpace) (ty : AtomType)
    (name : String) (now : ℤ) :
    ((atomspace_add_atom space ty name now).1.atoms.map Atom.name =
        space.atoms.map Atom.name) ∨
    ((atomspace_add_atom space ty name now).1.atoms.map Atom.name =
        name :: space.atoms.map Atom.name ∧
      name ∉ space.atoms.map Atom.name) := by
  unfold atomspace_add_atom
  cases hfind : atomspace_find_atom space name with
  | some a =>
    left
    simp only
    exact update_first_map_name space.atoms name _ (fun a => rfl)
  | none =>
    right
    constructor
    · simp
    · intro hmem
      obtain ⟨b, hb, hbname⟩ := List.mem_map.mp hmem
      have := List.find?_eq_none.mp hfind b hb
      simp [hbname] at this

/-- Upserting any name preserves distinctness of the stored names. -/
theorem atomspace_add_atom_nodup (space : AtomSpace) (ty : AtomType)
    (name : String) (now : ℤ)
    (h : (space.atoms.map Atom.name).Nodup) :
    (((atomspace_add_atom space ty name now).1.atoms.map Atom.name).Nodup) := by
  rcases atomspace_add_atom_names space ty name now with heq | ⟨heq, hnm⟩
  · rw [heq]; exact h
  · rw [heq]; exact List.nodup_cons.mpr ⟨hnm, h⟩

/-- Any sequence of upserts preserves distinctness of the stored
names. -/
theorem run_upserts_nodup (ops : List (AtomType × String × ℤ)) :
    ∀ space : AtomSpace, (space.atoms.map Atom.name).Nodup →
      ((run_upserts space ops).atoms.map Atom.name).Nodup := by
  induction ops with
  | nil => intro space h; exact h
  | cons op rest ih =>
    intro space h
    exact ih _ (atomspace_add_atom_nodup space op.1 op.2.1 op.2.2 h)

/-- C8: every sequence of upserts starting from the empty store leaves
the stored names pairwise distinct, and an upsert of a name that is
already present keeps the name list identical (no duplicate is created)
and returns the existing fact with its importance raised by 0.1. -/
theorem C8_name_uniqueness :
    (∀ ops : List (AtomType × String × ℤ),
      ((run_upserts atomspace_create ops).atoms.map Atom.name).Nodup) ∧
    (∀ (space : AtomSpace) (ty : AtomType) (name : String) (now : ℤ)
        (a : Atom), atomspace_find_atom space name = some a →
      ((atomspace_add_atom space ty name now).1.atoms.map Atom.name =
          space.atoms.map Atom.name) ∧
      (atomspace_add_atom space ty name now).2 =
          { a with importance := a.importance + 0.1 }) := by
  constructor
  · intro ops
    exact run_upserts_nodup ops atomspace_create (by simp [atomspace_create])
  · intro space ty name now a hfind
    unfold atomspace_add_atom
    rw [hfind]
    exact ⟨update_first_map_name space.atoms name _ (fun a => rfl), rfl⟩

/-- Fact fixture named x with importance 1. -/
def atomX8 : Atom :=
  { id := 1, type := AtomType.ATOM_CONCEPT, name := "x"
    truth_value := 0.5, confidence := 0.5, importance := 1, timestamp := 0 }

/-- Store fixture holding one fact named x with importance 1. -/
def spaceC8 : AtomSpace :=
  { atoms := [atomX8], atom_count := 1, next_id := 2 }

/-- Witness for C8: a concrete upsert sequence with a repeated name keeps
the names distinct, and re-upserting the name x into the fixture store
returns the existing fact with importance 1.1. -/
theorem C8_name_uniqueness_witness :
    (((run_upserts atomspace_create
        [(AtomType.ATOM_CONCEPT, "x", 0), (AtomType.ATOM_CONCEPT, "y", 0),
         (AtomType.ATOM_CONCEPT, "x", 0)]).atoms.map Atom.name).Nodup) ∧
    (atomspace_add_atom spaceC8 AtomType.ATOM_CONCEPT "x" 0).2.importance =
      1.1 := by
  refine ⟨C8_name_uniqueness.1 _, ?_⟩
  have h := (C8_name_uniqueness.2 spaceC8 AtomType.ATOM_CONCEPT "x" 0
    atomX8 (by rfl)).2
  rw [h]
  norm_num [atomX8]

/-- C5: CoordinateHealing hands a broadcast HealingRequest envelope
(recipient 0) to the transport exactly when the local evaluation yields
HEALING_NONE or HEALING_RETRY; for any other locally evaluated action it
sends nothing. -/
theorem C5_escalation_policy (c : HiveCoordinator) (problem_desc : String)
    (pid : Nat) (now : ℤ) :
    ((healing_evaluate_problem c.local_engine.healing_rules problem_desc =
        HealingAction.HEALING_NONE ∨
      healing_evaluate_problem c.local_engine.healing_rules problem_desc =
        HealingAction.HEALING_RETRY) ↔
      (hive_coordinate_healing c problem_desc pid now).2 ≠ []) ∧
    ∀ m ∈ (hive_coordinate_healing c problem_desc pid now).2,
      m.type = HiveMessageType.HIVE_MSG_HEALING_REQUEST ∧
      m.recipient_id = 0 := by
  by_cases hcond :
      healing_evaluate_problem c.local_engine.healing_rules problem_desc =
        HealingAction.HEALING_NONE ∨
      healing_evaluate_problem c.local_engine.healing_rules problem_desc =
        HealingAction.HEALING_RETRY
  · constructor
    · simp only [hive_coordinate_healing, if_pos hcond]
      simp [request_healing_assistance_impl, hive_message_set_data,
        hive_message_create, send_message_impl, HEALING_REQUEST_SIZE,
        HIVE_MESSAGE_DATA_SIZE, hcond]
    · intro m hm
      simp only [hive_coordinate_healing, if_pos hcond,
        request_healing_assistance_impl, hive_message_set_data,
        hive_message_create, send_message_impl, HEALING_REQUEST_SIZE,
        HIVE_MESSAGE_DATA_SIZE] at hm
      simp only [if_neg (by norm_num : ¬ (288 : ℕ) > 512)] at hm
      rw [List.mem_singleton] at hm
      subst hm
      exact ⟨rfl, rfl⟩
  · constructor
    · simp only [hive_coordinate_healing, if_neg hcond]
      simp [hcond]
    · intro m hm
      simp only [hive_coordinate_healing, if_neg hcond] at hm
      simp at hm

/-- Witness for C5: with an empty rule list the local evaluation falls
back to HEALING_RETRY, so a concrete coordinator escalates: the sent
list is nonempty. -/
theorem C5_escalation_policy_witness :
    (hive_coordinate_healing egCoord "disk_full" 1 0).2 ≠ [] :=
  (C5_escalation_policy egCoord "disk_full" 1 0).1.mp (Or.inr rfl)

/-- Messages produced by the heartbeat and sync steps of the cycle are
heartbeats. -/
theorem cycle_after_updates_types (c : HiveCoordinator) (now : ℤ) :
    ∀ m ∈ (cycle_after_updates c now).2,
      m.type = HiveMessageType.HIVE_MSG_HEARTBEAT := by
  intro m hm
  by_cases h : now - c.last_heartbeat ≥ 30
  · simp only [cycle_after_updates, if_pos h, send_message_impl,
      hive_message_create, List.mem_singleton] at hm
    subst hm; rfl
  · simp only [cycle_after_updates, if_neg h, List.not_mem_nil] at hm

/-- The sharing step hands to the transport exactly one broadcast
knowledge share for the first stored atom with importance above 0.8 and
age under 300 seconds, and nothing when no such atom exists. -/
theorem cycle_share_characterization (c : HiveCoordinator) (now : ℤ)
    (space : AtomSpace) (hk : c.local_engine.global_knowledge = some space) :
    (cycle_share c now).2 =
      match space.atoms.find? (fun a =>
          decide (a.importance > 0.8) && decide (now - a.timestamp < 300)) with
      | none => []
      | some atom =>
        [{ sender_id := c.node_id, recipient_id := 0
           type := HiveMessageType.HIVE_MSG_KNOWLEDGE_SHARE
           sequence_number := (c.sequence_counter + 1) % U32_MOD
           timestamp := now, data_length := KNOWLEDGE_PACKET_SIZE
           data := HiveData.knowledge (knowledge_packet_from_atom atom) }] := by
  simp only [cycle_share, hk]
  cases hfind : space.atoms.find? (fun a =>
      decide (a.importance > 0.8) && decide (now - a.timestamp < 300)) with
  | none => rfl
  | some atom =>
    have hp := List.find?_some hfind
    simp only [Bool.and_eq_true, decide_eq_true_eq] at hp
    have himp : atom.importance > 0.7 := by linarith [hp.1]
    simp only [share_knowledge_impl, if_pos himp, hive_broadcast_knowledge,
      hive_message_create, hive_message_set_data, send_message_impl,
      KNOWLEDGE_PACKET_SIZE, HIVE_MESSAGE_DATA_SIZE]
    norm_num

/-- C3 amended: per tick the coordinator broadcasts at most one
KnowledgeShare; it broadcasts one exactly when the knowledge store (as
seen after the heartbeat and sync steps) holds a fact with importance
above 0.8 (not 0.7 as the spec states) and age under 300 seconds; the
broadcast carries the packet of the first such fact. -/
theorem C3_amended_selective_sharing (c : HiveCoordinator) (now : ℤ)
    (space : AtomSpace)
    (hk : (cycle_after_updates c now).1.local_engine.global_knowledge =
      some space) :
    ((((hive_coordinator_process_cycle c now).2.filter
        (fun m => decide
          (m.type = HiveMessageType.HIVE_MSG_KNOWLEDGE_SHARE))).length ≤ 1) ∧
    ((((hive_coordinator_process_cycle c now).2.filter
        (fun m => decide
          (m.type = HiveMessageType.HIVE_MSG_KNOWLEDGE_SHARE))) ≠ []) ↔
      ∃ a ∈ space.atoms, a.importance > 0.8 ∧ now - a.timestamp < 300) ∧
    (∀ m ∈ (hive_coordinator_process_cycle c now).2.filter
        (fun m => decide
          (m.type = HiveMessageType.HIVE_MSG_KNOWLEDGE_SHARE)),
      ∃ a, space.atoms.find? (fun x => decide (x.importance > 0.8) &&
          decide (now - x.timestamp < 300)) = some a ∧
        m.data = HiveData.knowledge (knowledge_packet_from_atom a) ∧
        m.recipient_id = 0)) := by
  have hfilter1 : ((cycle_after_updates c now).2.filter
      (fun m => decide
        (m.type = HiveMessageType.HIVE_MSG_KNOWLEDGE_SHARE))) = [] := by
    rw [List.filter_eq_nil_iff]
    intro m hm
    have := cycle_after_updates_types c now m hm
    simp [this]
  have hsplit : (hive_coordinator_process_cycle c now).2.filter
      (fun m => decide
        (m.type = HiveMessageType.HIVE_MSG_KNOWLEDGE_SHARE)) =
      ((cycle_share (cycle_after_updates c now).1 now).2.filter
        (fun m => decide
          (m.type = HiveMessageType.HIVE_MSG_KNOWLEDGE_SHARE))) := by
    simp only [hive_coordinator_process_cycle, List.filter_append, hfilter1,
      List.nil_append]
  rw [hsplit, cycle_share_characterization _ now space hk]
  cases hfind : space.atoms.find? (fun x => decide (x.importance > 0.8) &&
      decide (now - x.timestamp < 300)) with
  | none =>
    have hnone := List.find?_eq_none.mp hfind
    refine ⟨by norm_num, ?_, by intro m hm; simp at hm⟩
    constructor
    · intro h; exact absurd rfl h
    · rintro ⟨a, ha, h1, h2⟩
      have := hnone a ha
      simp only [Bool.and_eq_true, decide_eq_true_eq, not_and] at this
      exact absurd (this h1) (by simp [h2])
  | some atom =>
    have hp := List.find?_some hfind
    simp only [Bool.and_eq_true, decide_eq_true_eq] at hp
    have hmem := List.mem_of_find?_eq_some hfind
    simp only [List.filter_cons, List.filter_nil]
    rw [if_pos (by simp)]
    refine ⟨by norm_num, ?_, ?_⟩
    · constructor
      · intro _; exact ⟨atom, hmem, hp.1, hp.2⟩
      · intro _; simp
    · intro m hm
      rw [List.mem_singleton] at hm
      subst hm
      exact ⟨atom, rfl, rfl, rfl⟩

/-- A fact above the spec threshold 0.7 but below the code threshold 0.8,
fresh at time 0. -/
def atomC3 : Atom :=
  { id := 1, type := AtomType.ATOM_CONCEPT, name := "g"
    truth_value := 0.5, confidence := 0.5, importance := 0.75, timestamp := 0 }

/-- Store holding only atomC3. -/
def spaceC3 : AtomSpace := { atoms := [atomC3], atom_count := 1, next_id := 2 }

/-- Engine fixture around spaceC3 (no topology, no rules). -/
def engineC3 : AutognosisEngine :=
  { self_image := { health_score := 1, autonomy_level := 0.5 }
    topology := none, healing_rules := [], global_knowledge := some spaceC3 }

/-- Coordinator fixture around engineC3 with fresh clocks, so a tick at
time 0 performs neither the heartbeat nor the sync step. -/
def coordC3 : HiveCoordinator :=
  { local_engine := engineC3, node_id := 1, sequence_counter := 0
    last_heartbeat := 0, last_knowledge_sync := 0
    collective_intelligence_score := 0.5 }

/-- C3 counterexample: a fact with importance 0.75 (above 0.7) and age 0
(under 300 seconds) satisfies the claimed sharing condition, yet a tick
sends no message at all: the cycle scan requires importance above 0.8. -/
theorem C3_selective_sharing_counterexample :
    atomC3.importance > 0.7 ∧ ((0 : ℤ) - atomC3.timestamp < 300) ∧
    (hive_coordinator_process_cycle coordC3 0).2 = [] := by
  refine ⟨by norm_num [atomC3], by norm_num [atomC3], ?_⟩
  norm_num [hive_coordinator_process_cycle, cycle_after_updates, cycle_share,
    coordC3, engineC3, spaceC3, atomC3, List.find?,
    update_collective_knowledge_impl, share_knowledge_impl]

/-- The counterexample fact raised to importance 0.85. -/
def atomC3w : Atom := { atomC3 with importance := 0.85 }

/-- Store holding only atomC3w. -/
def spaceC3w : AtomSpace := { atoms := [atomC3w], atom_count := 1, next_id := 2 }

/-- Coordinator fixture whose store holds atomC3w. -/
def coordC3w : HiveCoordinator :=
  { coordC3 with
      local_engine := { engineC3 with global_knowledge := some spaceC3w } }

/-- Witness for C3 amended: with a stored fact of importance 0.85 and age
0, a tick at time 0 does broadcast a KnowledgeShare. -/
theorem C3_amended_selective_sharing_witness :
    ((hive_coordinator_process_cycle coordC3w 0).2.filter
      (fun m => decide
        (m.type = HiveMessageType.HIVE_MSG_KNOWLEDGE_SHARE))) ≠ [] :=
  (C3_amended_selective_sharing coordC3w 0 spaceC3w
      (by norm_num [cycle_after_updates, coordC3w, coordC3, engineC3])).2.1.mpr
    ⟨atomC3w, by simp [spaceC3w], by norm_num [atomC3w, atomC3],
      by norm_num [atomC3w, atomC3]⟩

/-- Integrating a knowledge packet does not touch the sequence
counter. -/
theorem process_shared_knowledge_impl_seq (c : HiveCoordinator)
    (p : KnowledgePacket) (now : ℤ) :
    (process_shared_knowledge_impl c p now).sequence_counter =
      c.sequence_counter := by
  unfold process_shared_knowledge_impl
  cases c.local_engine.global_knowledge <;> simp

/-- Refreshing the collective topology does not touch the sequence
counter. -/
theorem hive_update_collective_topology_seq (c : HiveCoordinator) (now : ℤ) :
    (hive_update_collective_topology c now).sequence_counter =
      c.sequence_counter := by
  unfold hive_update_collective_topology
  cases c.local_engine.topology <;>
    [skip; cases c.local_engine.global_knowledge] <;> simp

/-- C6 amended: as long as the u32 counter does not wrap (fewer than 2^32
sends), the sequence numbers assigned by two consecutive Send calls are
strictly increasing; and dispatching any received envelope other than a
HealingRequest leaves the recipient's sequence counter unchanged (a
HealingRequest makes the recipient send a response, which increments its
own counter as any send does). -/
theorem C6_amended_sequence (c : HiveCoordinator) (m1 m2 : HiveMessage)
    (h : c.sequence_counter + 2 < U32_MOD) :
    ((send_message_impl c m1).2.sequence_number <
      (send_message_impl (send_message_impl c m1).1 m2).2.sequence_number) ∧
    (∀ (msg : HiveMessage) (now : ℤ),
      msg.type ≠ HiveMessageType.HIVE_MSG_HEALING_REQUEST →
      (receive_message_impl c msg now).1.sequence_counter =
        c.sequence_counter) := by
  constructor
  · have e1 : (c.sequence_counter + 1) % U32_MOD = c.sequence_counter + 1 :=
      Nat.mod_eq_of_lt (by omega)
    simp only [send_message_impl, e1]
    rw [Nat.mod_eq_of_lt (by omega)]
    omega
  · intro msg now hty
    cases htype : msg.type with
    | HIVE_MSG_HEARTBEAT =>
      simp only [receive_message_impl, htype]
      cases c.local_engine.topology <;> simp
    | HIVE_MSG_KNOWLEDGE_SHARE =>
      simp only [receive_message_impl, htype]
      by_cases hl : msg.data_length = KNOWLEDGE_PACKET_SIZE
      · rw [if_pos hl]
        cases msg.data <;>
          simp [process_shared_knowledge_impl_seq]
      · rw [if_neg hl]
    | HIVE_MSG_HEALING_REQUEST => exact absurd htype hty
    | HIVE_MSG_HEALING_RESPONSE => simp [receive_message_impl, htype]
    | HIVE_MSG_TOPOLOGY_UPDATE =>
      simp [receive_message_impl, htype,
        hive_update_collective_topology_seq]
    | HIVE_MSG_EMERGENCY_SIGNAL => simp [receive_message_impl, htype]

/-- A well-formed healing request addressed to node 1. -/
def reqC6 : HealingRequest :=
  { problem_id := 1, problem_description := "timeout", severity := 0.8
    requesting_node := 2, request_time := 0
    suggested_action := HealingAction.HEALING_NONE }

/-- A HealingRequest envelope with the exact in-memory payload size. -/
def msgC6 : HiveMessage :=
  { sender_id := 2, recipient_id := 1
    type := HiveMessageType.HIVE_MSG_HEALING_REQUEST, sequence_number := 5
    timestamp := 0, data_length := 288, data := HiveData.healingReq reqC6 }

/-- C6 counterexample: receiving a HealingRequest envelope changes the
recipient's sequence counter (from 0 to 1), because dispatch sends the
healing response through the recipient's own send path. -/
theorem C6_sequence_counterexample :
    (receive_message_impl coordC3 msgC6 0).1.sequence_counter ≠
      coordC3.sequence_counter := by
  norm_num [receive_message_impl, msgC6, coordC3, HEALING_REQUEST_SIZE,
    respond_to_healing_request_impl, send_message_impl, hive_message_create,
    hive_message_set_data, HIVE_MESSAGE_DATA_SIZE, U32_MOD]

/-- Witness for C6 amended: from a fresh counter, the first two sends get
sequence numbers 1 and 2, strictly increasing. -/
theorem C6_amended_sequence_witness :
    (send_message_impl egCoord msgC6).2.sequence_number <
      (send_message_impl (send_message_impl egCoord msgC6).1
        msgC6).2.sequence_number :=
  (C6_amended_sequence egCoord msgC6 msgC6
    (by norm_num [egCoord, U32_MOD])).1

/-- C9: a KnowledgeShare envelope whose payload length differs from
sizeof(knowledge_packet_t), or a HealingRequest envelope whose payload
length differs from sizeof(healing_request_t), is dispatched to no
action at all: the coordinator state (knowledge store included) is
returned unchanged, nothing is sent, and no error is reported (the
return carries no error channel). -/
theorem C9_malformed_length_no_action (c : HiveCoordinator)
    (m : HiveMessage) (now : ℤ)
    (h : (m.type = HiveMessageType.HIVE_MSG_KNOWLEDGE_SHARE ∧
            m.data_length ≠ KNOWLEDGE_PACKET_SIZE) ∨
         (m.type = HiveMessageType.HIVE_MSG_HEALING_REQUEST ∧
            m.data_length ≠ HEALING_REQUEST_SIZE)) :
    receive_message_impl c m now = (c, []) := by
  rcases h with ⟨ht, hl⟩ | ⟨ht, hl⟩ <;>
    simp [receive_message_impl, ht, hl]

/-- A KnowledgeShare envelope with a 7-byte payload length, not the
280-byte packet size. -/
def msgC9 : HiveMessage :=
  { sender_id := 2, recipient_id := 1
    type := HiveMessageType.HIVE_MSG_KNOWLEDGE_SHARE, sequence_number := 9
    timestamp := 0, data_length := 7, data := HiveData.empty }

/-- Witness for C9: the malformed share envelope leaves the concrete
coordinator untouched and produces no messages. -/
theorem C9_malformed_length_no_action_witness :
    receive_message_impl coordC3 msgC9 0 = (coordC3, []) :=
  C9_malformed_length_no_action coordC3 msgC9 0
    (Or.inl ⟨rfl, by norm_num [msgC9, KNOWLEDGE_PACKET_SIZE]⟩)

/-- C10: every response produced by RespondToHealingRequest carries
confidence exactly 0.8 whatever the local evaluation returned (the sent
list is exactly one response envelope), and every request built by
CoordinateHealing carries severity exactly 0.8 (the function signature
takes no severity; 0.8f is the literal passed to
healing_request_create). -/
theorem C10_hardcoded_floats (c : HiveCoordinator) (request : HealingRequest)
    (problem_desc : String) (pid : Nat) (now : ℤ) :
    (((respond_to_healing_request_impl c request now).2.length = 1) ∧
      ∀ m ∈ (respond_to_healing_request_impl c request now).2,
        ∀ resp : HealingResponse, m.data = HiveData.healingResp resp →
          resp.confidence = 0.8) ∧
    (∀ m ∈ (hive_coordinate_healing c problem_desc pid now).2,
      ∀ req : HealingRequest, m.data = HiveData.healingReq req →
        req.severity = 0.8) := by
  constructor
  · constructor
    · rfl
    · intro m hm resp heq
      simp only [respond_to_healing_request_impl, hive_message_set_data,
        hive_message_create, send_message_impl, HEALING_RESPONSE_SIZE,
        HIVE_MESSAGE_DATA_SIZE, List.mem_singleton] at hm
      rw [if_neg (by norm_num)] at hm
      subst hm
      simp only [HiveData.healingResp.injEq] at heq
      rw [← heq]
      rfl
  · intro m hm req heq
    by_cases hcond :
        healing_evaluate_problem c.local_engine.healing_rules problem_desc =
          HealingAction.HEALING_NONE ∨
        healing_evaluate_problem c.local_engine.healing_rules problem_desc =
          HealingAction.HEALING_RETRY
    · simp only [hive_coordinate_healing, if_pos hcond,
        request_healing_assistance_impl, hive_message_set_data,
        hive_message_create, send_message_impl, HEALING_REQUEST_SIZE,
        HIVE_MESSAGE_DATA_SIZE, List.mem_singleton] at hm
      rw [if_neg (by norm_num)] at hm
      subst hm
      simp only [HiveData.healingReq.injEq] at heq
      rw [← heq]
      rfl
    · simp only [hive_coordinate_healing, if_neg hcond,
        List.not_mem_nil] at hm

/-- Witness for C10: a concrete response envelope built by the responder
carries confidence 0.8, and a concrete escalation request carries
severity 0.8. -/
theorem C10_hardcoded_floats_witness :
    (healing_response_create 1 1 HealingAction.HEALING_RETRY
        0.8).confidence = 0.8 ∧
    ({ healing_request_create "p" 0.8 1 3 0 with
        suggested_action := HealingAction.HEALING_RETRY } :
      HealingRequest).severity = 0.8 := by
  constructor
  · exact (C10_hardcoded_floats egCoord reqC6 "p" 3 0).1.2
      { sender_id := 1, recipient_id := 2
        type := HiveMessageType.HIVE_MSG_HEALING_RESPONSE
        sequence_number := 1, timestamp := 0
        data_length := HEALING_RESPONSE_SIZE
        data := HiveData.healingResp (healing_response_create 1 1
          HealingAction.HEALING_RETRY 0.8) }
      (by norm_num [respond_to_healing_request_impl, hive_message_set_data,
        hive_message_create, send_message_impl, HEALING_RESPONSE_SIZE,
        HIVE_MESSAGE_DATA_SIZE, egCoord, egEngine, reqC6,
        healing_evaluate_problem, U32_MOD])
      (healing_response_create 1 1 HealingAction.HEALING_RETRY 0.8) rfl
  · exact (C10_hardcoded_floats egCoord reqC6 "p" 3 0).2
      { sender_id := 1, recipient_id := 0
        type := HiveMessageType.HIVE_MSG_HEALING_REQUEST
        sequence_number := 1, timestamp := 0
        data_length := HEALING_REQUEST_SIZE
        data := HiveData.healingReq
          { healing_request_create "p" 0.8 1 3 0 with
              suggested_action := HealingAction.HEALING_RETRY } }
      (by norm_num [hive_coordinate_healing, request_healing_assistance_impl,
        hive_message_set_data, hive_message_create, send_message_impl,
        HEALING_REQUEST_SIZE, HIVE_MESSAGE_DATA_SIZE, egCoord, egEngine,
        healing_evaluate_problem, healing_request_create, U32_MOD])
      _ rfl

end Hivecog
